import Mathlib

/-
Shallow embedding of the ha_taco BLE coordinator core.

Python sources embedded here:
- src/src/gatt.py                        (capability data model)
- src/src/taco_gatt_write_transform.py   (write-side transforms)
- src/src/taco_gatt_read_transform.py    (read-side transforms)
- const.py                               (the capability catalog `taco_gatt`)
- src/src/ble_data_update_coordinator.py (write dispatch, poll read set,
                                          result consumption, client failure)
- src/src/taco_init.py                   (password validation, write loop)

Conventions: bytearrays are `List Nat`, `datetime` values are `Nat` seconds,
`timedelta` constants are `Nat` seconds, Python `None`-or-value results are
`Option`, and a raised exception is an explicit error flag or `Except`.
-/

/-- Enum `ReadAction` from gatt.py. -/
inductive ReadAction where
  | UNKNOWN
  | NOOP
  | INDEX
  | POLL
  | SUBSCRIBE
  | AFTER_WRITE
  | AFTER_NOTIFICATION
deriving DecidableEq, Inhabited

/-- Enum `Property` from gatt.py. -/
inductive GattProperty where
  | UNKNOWN
  | READ
  | NOTIFY
  | WRITE
  | EXTENDED_PROPS
  | INDICATE
deriving DecidableEq, BEq, Inhabited

/-- Dataclass `ZoneInfo` from taco_gatt_read_transform.py: one boolean per
zone, true means on. -/
structure ZoneInfo where
  zone1 : Bool
  zone2 : Bool
  zone3 : Bool
  zone4 : Bool
  zone5 : Bool
  zone6 : Bool
deriving DecidableEq, Inhabited

/-- The value part of a decoded read result. Python uses `any`; the read
transforms embedded here only ever produce strings, ZoneInfo records or raw
byte arrays. -/
inductive ReadValue where
  | strV (s : String)
  | zonesV (z : ZoneInfo)
  | bytesV (b : List Nat)
deriving DecidableEq, Inhabited

/-- Dataclass `ReadResult` from taco_gatt_read_transform.py. -/
structure ReadResult where
  key : String
  value : ReadValue
deriving DecidableEq, Inhabited

/-- The `extra` payload of a write request. Python uses `any`; the callers in
this repository only ever pass a password string, a ZoneInfo, or nothing. -/
inductive Extra where
  | nullE
  | strE (s : String)
  | zonesE (z : ZoneInfo)
deriving DecidableEq, Inhabited

/-- Dataclass `WriteRequest` from taco_gatt_write_transform.py. -/
structure WriteRequest where
  action : String
  extra : Extra := .nullE
deriving DecidableEq, Inhabited

/-- `Characteristic` from gatt.py, with the same defaults. The Python field
`read_transform` is omitted: its outputs are heterogeneous (`any`) and the
read transforms are embedded as standalone functions below; no claim depends
on routing a read transform through the catalog. -/
structure Characteristic where
  uuid : String := ""
  name : String := ""
  properties : List GattProperty := []
  read_action : ReadAction := .NOOP
  write_transform : String → Extra → Option (List Nat) := fun _ _ => none

/-- `Service` from gatt.py. -/
structure Service where
  uuid : String := ""
  name : String := ""
  characteristics : List Characteristic := []

/-- `Gatt` from gatt.py. -/
structure Gatt where
  services : List Service := []

/- ---------------------------------------------------------------------
Write transforms (src/src/taco_gatt_write_transform.py)
--------------------------------------------------------------------- -/

def PROVIDE_PASSWORD : String := "provide_password"

def REQUEST_FORCE_ZONE_STATUS : String := "request_force_zones_status"

def FORCE_ZONE_ON : String := "force_zones_on"

/-- Zone name constants from taco_gatt_read_transform.py. -/
def ZONE1 : String := "ZONE1"

def ZONE2 : String := "ZONE2"

def ZONE3 : String := "ZONE3"

def ZONE4 : String := "ZONE4"

def ZONE5 : String := "ZONE5"

def ZONE6 : String := "ZONE6"

/-- `ZONE_BY_BYTE` dict from taco_gatt_read_transform.py. -/
def ZONE_BY_BYTE : List (Nat × String) :=
  [(1, ZONE1), (2, ZONE2), (4, ZONE3), (8, ZONE4), (16, ZONE5), (32, ZONE6)]

/-- `BYTE_BY_ZONE` is the inverted dict; lookups in the source are always on
present keys, so the default 0 is never hit by any caller. -/
def BYTE_BY_ZONE (zone : String) : Nat :=
  ((ZONE_BY_BYTE.map (fun p => (p.2, p.1))).lookup zone).getD 0

/-- `bytearray(password, encoding="ascii")`. Every password in this
development is ASCII, where the encoding is the identity on code points
(Python raises UnicodeEncodeError on non-ASCII input, never exercised). -/
def ascii_bytes (s : String) : List Nat :=
  s.data.map Char.toNat

/-- `write_password_transform` from taco_gatt_write_transform.py lines 32-38.
There is no length check here. The payload is a string in every caller; a
non-string payload would be a Python TypeError and is modelled as `none`
(never exercised by any theorem below). -/
def write_password_transform (action : String) (password : Extra) : Option (List Nat) :=
  if action ≠ PROVIDE_PASSWORD then
    none
  else
    match password with
    | .strE s => some (ascii_bytes s)
    | _ => none

/-- `_write_force_zone_on` from taco_gatt_write_transform.py lines 41-53. -/
def write_force_zone_on (zone_info : ZoneInfo) : List Nat :=
  let zone_byte := 0
  let zone_byte := zone_byte ||| (if zone_info.zone1 then BYTE_BY_ZONE ZONE1 else 0)
  let zone_byte := zone_byte ||| (if zone_info.zone2 then BYTE_BY_ZONE ZONE2 else 0)
  let zone_byte := zone_byte ||| (if zone_info.zone3 then BYTE_BY_ZONE ZONE3 else 0)
  let zone_byte := zone_byte ||| (if zone_info.zone4 then BYTE_BY_ZONE ZONE4 else 0)
  let zone_byte := zone_byte ||| (if zone_info.zone5 then BYTE_BY_ZONE ZONE5 else 0)
  let zone_byte := zone_byte ||| (if zone_info.zone6 then BYTE_BY_ZONE ZONE6 else 0)
  [0, 16, 0, zone_byte]

/-- `_write_force_zone_status_request` from taco_gatt_write_transform.py. -/
def write_force_zone_status_request : List Nat :=
  [1, 0, 0, 16]

/-- `write_network_diagnostic_mode_transform` from
taco_gatt_write_transform.py lines 70-79. -/
def write_network_diagnostic_mode_transform (action : String) (extra : Extra) :
    Option (List Nat) :=
  if action = REQUEST_FORCE_ZONE_STATUS then
    some write_force_zone_status_request
  else if action = FORCE_ZONE_ON then
    match extra with
    | .zonesE z => some (write_force_zone_on z)
    | _ => none
  else
    none

/- ---------------------------------------------------------------------
Read transforms (src/src/taco_gatt_read_transform.py) — the one the claims
need, plus the trivial logging transform.
--------------------------------------------------------------------- -/

/-- `_is_byte_match` from taco_gatt_read_transform.py. -/
def is_byte_match (byte target : Nat) : Bool :=
  decide ((byte &&& target) = target)

def NETWORK_DIAGNOSTIC_ONBOARD_INPUTS : String := "network_diagnostic_onboard_inputs"

def NETWORK_DIAGNOSTIC_DAUGHTER_CARD : String := "network_diagnostic_daughter_card"

def NETWORK_DIAGNOSTIC_OPERATING_MODE : String := "network_diagnostic_operating_mode"

def NETWORK_DIAGNOSTIC_FORCE_ZONE_STATUS : String := "network_diagnostic_force_zone_status"

def NETWORK_DIAGNOSTIC_LAST_EXCEPTION : String := "network_diagnostic_last_exception"

/-- `read_network_diagnostic_data_transform` from taco_gatt_read_transform.py
lines 179-214. `_assert_bytearray_len` raising ValueError is the `.error`
case; returning `None` for an unknown discriminator is `.ok none`. -/
def read_network_diagnostic_data_transform (bytez : List Nat) :
    Except String (Option ReadResult) :=
  if bytez.length < 20 then
    .error "Invalid byte array, expected length of at least 20"
  else
    let b0 := bytez.getD 0 0
    let b1 := bytez.getD 1 0
    if b0 = 0 ∧ b1 = 0 then
      .ok (some ⟨"empty_network_diagnostic_data", .strV "noop"⟩)
    else if b0 = 1 ∧ b1 = 0 then
      .ok (some ⟨NETWORK_DIAGNOSTIC_ONBOARD_INPUTS, .strV "TODO"⟩)
    else if b0 = 4 ∧ b1 = 0 then
      .ok (some ⟨NETWORK_DIAGNOSTIC_DAUGHTER_CARD, .strV "TODO"⟩)
    else if b0 = 16 ∧ b1 = 0 then
      .ok (some ⟨NETWORK_DIAGNOSTIC_OPERATING_MODE, .strV "TODO"⟩)
    else if b0 = 0 ∧ b1 = 16 then
      let byte := bytez.getD 3 0
      .ok (some ⟨NETWORK_DIAGNOSTIC_FORCE_ZONE_STATUS, .zonesV
        ⟨is_byte_match byte (BYTE_BY_ZONE ZONE1),
         is_byte_match byte (BYTE_BY_ZONE ZONE2),
         is_byte_match byte (BYTE_BY_ZONE ZONE3),
         is_byte_match byte (BYTE_BY_ZONE ZONE4),
         is_byte_match byte (BYTE_BY_ZONE ZONE5),
         is_byte_match byte (BYTE_BY_ZONE ZONE6)⟩⟩)
    else if b0 = 0 ∧ b1 = 32 then
      .ok (some ⟨NETWORK_DIAGNOSTIC_LAST_EXCEPTION, .bytesV bytez⟩)
    else
      .ok none

/-- `read_log_transform` from taco_gatt_read_transform.py lines 217-221:
logs and returns None. -/
def read_log_transform (_bytez : List Nat) : Option ReadResult :=
  none

/- ---------------------------------------------------------------------
The capability catalog `taco_gatt` (const.py lines 27-261), transcribed
service by service, characteristic by characteristic, in source order.
--------------------------------------------------------------------- -/

def taco_gatt : Gatt :=
  { services := [
      { uuid := "38f63141-02b6-403c-810c-7e1253f474eb"
        name := "Diagnostics"
        characteristics := [
          { uuid := "38f6314b-02b6-403c-810c-7e1253f474eb"
            name := "platformId"
            properties := [.READ] },
          { uuid := "38f63144-02b6-403c-810c-7e1253f474eb"
            name := "firmwareVersion"
            properties := [.READ] },
          { uuid := "38f63142-02b6-403c-810c-7e1253f474eb"
            name := "productId"
            properties := [.READ] },
          { uuid := "38f63143-02b6-403c-810c-7e1253f474eb"
            name := "serialNumber"
            properties := [.READ] },
          { uuid := "38f63145-02b6-403c-810c-7e1253f474eb"
            name := "status"
            properties := [.READ, .NOTIFY] },
          { uuid := "38f63146-02b6-403c-810c-7e1253f474eb"
            name := "deviceName"
            properties := [.READ, .WRITE] },
          { uuid := "38f63147-02b6-403c-810c-7e1253f474eb"
            name := "location"
            properties := [.READ, .WRITE] },
          { uuid := "38f63148-02b6-403c-810c-7e1253f474eb"
            name := "notes"
            properties := [.READ, .WRITE, .EXTENDED_PROPS] },
          { uuid := "38f63149-02b6-403c-810c-7e1253f474eb"
            name := "password"
            properties := [.WRITE]
            write_transform := write_password_transform },
          { uuid := "38f6314a-02b6-403c-810c-7e1253f474eb"
            name := "interfaceRevision"
            properties := [.READ] },
          { uuid := "38f6314c-02b6-403c-810c-7e1253f474eb"
            name := "diagnosticMode"
            properties := [.READ, .WRITE] }] },
      { uuid := "1b423141-e0eb-4d9e-a86b-dcabcc3565b9"
        name := "ZoneControl"
        characteristics := [
          { uuid := "1b423159-e0eb-4d9e-a86b-dcabcc3565b9"
            name := "networkDeviceIndex"
            properties := [.READ, .WRITE] },
          { uuid := "1b42315c-e0eb-4d9e-a86b-dcabcc3565b9"
            name := "networkDeviceName"
            properties := [.READ, .WRITE] },
          { uuid := "1b423161-e0eb-4d9e-a86b-dcabcc3565b9"
            name := "networkProductId"
            properties := [.READ]
            read_action := .INDEX },
          { uuid := "1b42315e-e0eb-4d9e-a86b-dcabcc3565b9"
            name := "networkDiagnosticData"
            properties := [.READ, .INDICATE]
            read_action := .AFTER_NOTIFICATION },
          { uuid := "1b423162-e0eb-4d9e-a86b-dcabcc3565b9"
            name := "networkFirmwareVersion"
            properties := [.READ] },
          { uuid := "1b423144-e0eb-4d9e-a86b-dcabcc3565b9"
            name := "networkDIPInputStatus"
            properties := [.READ, .NOTIFY] },
          { uuid := "1b423145-e0eb-4d9e-a86b-dcabcc3565b9"
            name := "pumpExerciseOffTime"
            properties := [.READ, .WRITE] },
          { uuid := "1b423146-e0eb-4d9e-a86b-dcabcc3565b9"
            name := "pumpExerciseOnTime"
            properties := [.READ, .WRITE] },
          { uuid := "1b42315a-e0eb-4d9e-a86b-dcabcc3565b9"
            name := "postPurgeTime"
            properties := [.READ, .WRITE] },
          { uuid := "1b423148-e0eb-4d9e-a86b-dcabcc3565b9"
            name := "zvcInterfaceRevision"
            properties := [.READ] },
          { uuid := "1b423149-e0eb-4d9e-a86b-dcabcc3565b9"
            name := "networkZoneNames"
            properties := [.READ, .WRITE, .EXTENDED_PROPS] },
          { uuid := "1b42314b-e0eb-4d9e-a86b-dcabcc3565b9"
            name := "networkId"
            properties := [.READ] },
          { uuid := "1b423160-e0eb-4d9e-a86b-dcabcc3565b9"
            name := "networkDeviceLocation"
            properties := [.READ, .WRITE] },
          { uuid := "1b42314e-e0eb-4d9e-a86b-dcabcc3565b9"
            name := "networkAddressMapping"
            properties := [.READ, .NOTIFY] },
          { uuid := "1b42314f-e0eb-4d9e-a86b-dcabcc3565b9"
            name := "networkAddressStatus"
            properties := [.READ, .NOTIFY] },
          { uuid := "1b423150-e0eb-4d9e-a86b-dcabcc3565b9"
            name := "networkZoneCount"
            properties := [.READ]
            read_action := .INDEX },
          { uuid := "1b423151-e0eb-4d9e-a86b-dcabcc3565b9"
            name := "networkThermostatInputStatus"
            properties := [.READ, .NOTIFY]
            read_action := .SUBSCRIBE },
          { uuid := "1b423152-e0eb-4d9e-a86b-dcabcc3565b9"
            name := "networkZoneStatus"
            properties := [.READ, .NOTIFY]
            read_action := .SUBSCRIBE },
          { uuid := "1b423153-e0eb-4d9e-a86b-dcabcc3565b9"
            name := "networkMainBoilerEndSwitch"
            properties := [.READ, .WRITE] },
          { uuid := "1b423154-e0eb-4d9e-a86b-dcabcc3565b9"
            name := "networkPriorityBoilerEndSwitch"
            properties := [.READ, .WRITE] },
          { uuid := "1b423155-e0eb-4d9e-a86b-dcabcc3565b9"
            name := "networkAux1"
            properties := [.READ, .WRITE] },
          { uuid := "1b423156-e0eb-4d9e-a86b-dcabcc3565b9"
            name := "networkAux2"
            properties := [.READ, .WRITE] },
          { uuid := "1b423157-e0eb-4d9e-a86b-dcabcc3565b9"
            name := "networkAux3"
            properties := [.READ, .WRITE] },
          { uuid := "1b42315b-e0eb-4d9e-a86b-dcabcc3565b9"
            name := "networkOutputNames"
            properties := [.READ, .WRITE, .EXTENDED_PROPS] },
          { uuid := "1b423158-e0eb-4d9e-a86b-dcabcc3565b9"
            name := "operatingMode"
            properties := [.READ, .WRITE] },
          { uuid := "1b42315d-e0eb-4d9e-a86b-dcabcc3565b9"
            name := "networkDiagnosticMode"
            properties := [.READ, .WRITE]
            write_transform := write_network_diagnostic_mode_transform },
          { uuid := "1b42315f-e0eb-4d9e-a86b-dcabcc3565b9"
            name := "networkRecircMode"
            properties := [.READ, .WRITE] }] }] }

/- ---------------------------------------------------------------------
Write dispatch pipeline (src/src/ble_data_update_coordinator.py).

A run of `BleDataUpdateCoordinator.write` is modelled as the sequence of
observable wire events it produces, plus whether an exception propagated and
whether `self._successful_write_time` was stamped at the end. Wire-level
write failures are injected through an `ok` predicate on (uuid, bytes):
`ok u b = false` means `client.write_gatt_char` raises there.
-/

/-- Observable events of a write run: a gatt write to a characteristic uuid,
the `asyncio.sleep(0.1)` settle delay inside `_write_gatt` (lines 59-67),
and the final `self._successful_write_time = datetime.now()` stamp. -/
inductive WireEvent where
  | wireWrite (uuid : String) (bytez : List Nat)
  | settle
  | stampWrite
deriving DecidableEq

/-- Intermediate state of a dispatch: events so far, whether an exception
was raised, and the `successful_write` flag. -/
structure DispatchResult where
  events : List WireEvent
  raised : Bool
  successful_write : Bool
deriving DecidableEq

/-- Flattened characteristic list, in source order, as iterated by the
comprehensions `for service in self._gatt.services for characteristic in
service.characteristics`. -/
def all_characteristics (g : Gatt) : List Characteristic :=
  g.services.foldr (fun s acc => s.characteristics ++ acc) []

/-- `write_gatt_characteristics` from `write` (lines 247-252): the
characteristics with the WRITE property, in source order. -/
def write_gatt_characteristics (g : Gatt) : List Characteristic :=
  (all_characteristics g).filter (fun c => c.properties.contains .WRITE)

/-- The inner loop of `write` (lines 255-264) for one action: scan the
write-capable characteristics; `if not bytez: continue` skips both a `None`
and an empty bytearray; otherwise `_write_gatt` writes and settles, and
`successful_write` is set. A failing wire write raises immediately. -/
def write_one_action (ok : String → List Nat → Bool) (action : WriteRequest) :
    List Characteristic → DispatchResult
  | [] => ⟨[], false, false⟩
  | c :: cs =>
    match c.write_transform action.action action.extra with
    | none => write_one_action ok action cs
    | some [] => write_one_action ok action cs
    | some bytez =>
      if ok c.uuid bytez then
        let rest := write_one_action ok action cs
        ⟨.wireWrite c.uuid bytez :: .settle :: rest.events, rest.raised, true⟩
      else
        ⟨[], true, false⟩

/-- The outer loop of `write` (line 254): actions are processed strictly in
the caller-supplied order; a raised exception aborts the remaining batch. -/
def write_actions (ok : String → List Nat → Bool) (chars : List Characteristic) :
    List WriteRequest → DispatchResult
  | [] => ⟨[], false, false⟩
  | a :: as =>
    let first := write_one_action ok a chars
    if first.raised then
      ⟨first.events, true, first.successful_write⟩
    else
      let rest := write_actions ok chars as
      ⟨first.events ++ rest.events, rest.raised,
       first.successful_write || rest.successful_write⟩

/-- Result of a full `BleDataUpdateCoordinator.write` call. -/
structure WriteRun where
  events : List WireEvent
  raised : Bool
  stamped : Bool
deriving DecidableEq

/-- `BleDataUpdateCoordinator.write` (lines 238-272): dispatch the batch,
then stamp `_successful_write_time` only when no exception propagated and at
least one wire write happened (lines 265-272). -/
def coordinator_write (ok : String → List Nat → Bool) (g : Gatt)
    (actions : List WriteRequest) : WriteRun :=
  let r := write_actions ok (write_gatt_characteristics g) actions
  let stamped := !r.raised && r.successful_write
  ⟨r.events ++ (if stamped then [.stampWrite] else []), r.raised, stamped⟩

/- ---------------------------------------------------------------------
Poll read-set selection (lines 204-224) and its time windows.
--------------------------------------------------------------------- -/

/-- `DEFAULT_AFTER_WRITE_INTERVAL = timedelta(seconds=5)`. -/
def DEFAULT_AFTER_WRITE_INTERVAL : Nat := 5

/-- `DEFAULT_AFTER_NOTIFICATION_INTERVAL = timedelta(seconds=5)`. -/
def DEFAULT_AFTER_NOTIFICATION_INTERVAL : Nat := 5

/-- The filter condition of `poll_gatt_characteristics` inside `poll`
(lines 205-224). `now` stands for `datetime.now()`, `swt` for
`self._successful_write_time` and `nt` for
`self._successful_notification_time`, all in seconds. -/
def poll_characteristic_due (c : Characteristic) (is_first_poll : Bool)
    (now swt nt : Nat) : Bool :=
  c.properties.contains .READ &&
    ((decide (c.read_action ≠ .NOOP) && is_first_poll)
      || (decide (c.read_action = .AFTER_WRITE)
            && decide (now - swt < DEFAULT_AFTER_WRITE_INTERVAL))
      || (decide (c.read_action = .AFTER_NOTIFICATION)
            && decide (now - nt < DEFAULT_AFTER_NOTIFICATION_INTERVAL))
      || decide (c.read_action = .POLL))

/-- The read set of one poll cycle: `poll_gatt_characteristics` from `poll`. -/
def poll_gatt_characteristics (g : Gatt) (is_first_poll : Bool)
    (now swt nt : Nat) : List Characteristic :=
  (all_characteristics g).filter
    (fun c => poll_characteristic_due c is_first_poll now swt nt)

/- ---------------------------------------------------------------------
Result Store and `_consume_result` (lines 121-139).
--------------------------------------------------------------------- -/

/-- A duck-typed object arriving at `_consume_result`: its Python
truthiness, and its `key`/`value` attributes when present (`hasattr`). A
well-formed `ReadResult`/`LocalGattReadResult` maps to
`⟨true, some key, some value⟩`; `None` results arrive as `Option.none`. -/
structure PyReadResult where
  truthy : Bool
  key : Option String
  value : Option ReadValue
deriving DecidableEq

/-- `self._results[result.key] = result.value`: dict assignment on the
Result Store, modelled as an association list updated in place (last write
wins, insertion order preserved). -/
def store_insert (key : String) (value : ReadValue)
    (results : List (String × ReadValue)) : List (String × ReadValue) :=
  if results.any (fun p => decide (p.1 = key)) then
    results.map (fun p => if p.1 = key then (key, value) else p)
  else
    results ++ [(key, value)]

/-- `_consume_result` (lines 121-139): reject (return, store untouched) when
`not result or not hasattr(result, "key") or not hasattr(result, "value")`;
otherwise store the value under the key. The `is_from_notification`
timestamp update does not touch the store and is omitted here. -/
def consume_result (result : Option PyReadResult)
    (results : List (String × ReadValue)) : List (String × ReadValue) :=
  match result with
  | none => results
  | some r =>
    match r.truthy, r.key, r.value with
    | true, some k, some v => store_insert k v results
    | _, _, _ => results

/-- The guard of `_consume_result` as a predicate: a result is well formed
when it is truthy and has both a `key` and a `value` attribute. -/
def well_formed_result (result : Option PyReadResult) : Bool :=
  match result with
  | some r => r.truthy && r.key.isSome && r.value.isSome
  | none => false

/- ---------------------------------------------------------------------
`_make_client` failure path (lines 144-161) and `force_data_clear`
(lines 280-283).
--------------------------------------------------------------------- -/

/-- `force_data_clear` (lines 280-283): when awaited, it replaces
`self._results` with an empty dict. -/
def force_data_clear (_results : List (String × ReadValue)) :
    List (String × ReadValue) :=
  []

/-- The Result Store after the `except` branch of `_make_client`
(lines 153-159) runs and the bare `raise` re-raises. The branch executes
`self.force_data_clear()` WITHOUT `await` (line 154): in Python this only
creates a coroutine object and discards it, so the body of
`force_data_clear` never runs and `self._results` is left unchanged.
(Compare `shutdown`, line 290, which does `await self.force_data_clear()`.) -/
def make_client_failure_results (results : List (String × ReadValue)) :
    List (String × ReadValue) :=
  results

/- ---------------------------------------------------------------------
taco_init.py: password validation and the reconciliation loop.
--------------------------------------------------------------------- -/

/-- `_validate_password` (taco_init.py lines 24-36), returning the wire
events emitted and `some message` when a ConfigEntryAuthFailed propagates.
`if password and len(password) > 20` raises before `ble_coordinator.write`
is ever called; otherwise, for a truthy password, the write batch
`[WriteRequest(PROVIDE_PASSWORD, password)]` is dispatched and any exception
from it is wrapped into ConfigEntryAuthFailed. -/
def validate_password (ok : String → List Nat → Bool) (g : Gatt)
    (password : String) : List WireEvent × Option String :=
  if password ≠ "" ∧ password.length > 20 then
    ([], some "Cannot have a Taco password more than 20 characters.")
  else if password ≠ "" then
    let run := coordinator_write ok g [⟨PROVIDE_PASSWORD, .strE password⟩]
    (run.events, if run.raised then some "ConfigEntryAuthFailed" else none)
  else
    ([], none)

/-- `timedelta(minutes=4)`, the heartbeat threshold in `_loop`
(taco_init.py line 115), in seconds. -/
def FOUR_MINUTES : Nat := 240

/-- The `state` dict threaded through `_loop` by `setup_write_loop`:
`previous_actions` and `previous_write_time` entries, absent before the
first successful send. -/
structure LoopState where
  previous_actions : Option (List WriteRequest)
  previous_write_time : Option Nat
deriving DecidableEq

/-- One tick of `_loop` (taco_init.py lines 94-121) with the computed
`actions` batch as input. Returns the new state and how many times
`_send_write_requests` was called this tick. `state.get(key, default)` is
`Option.getD`; the heartbeat comparison is `datetime.now() -
previous_datetime > timedelta(minutes=4)` with default `datetime.now()`. -/
def loop_step (state : LoopState) (now : Nat) (actions : List WriteRequest) :
    LoopState × Nat :=
  if actions = [] then
    (state, 0)
  else
    let sends_changed : Nat :=
      if state.previous_actions.getD [] ≠ actions then 1 else 0
    let previous_datetime := state.previous_write_time.getD now
    let sends_heartbeat : Nat :=
      if now - previous_datetime > FOUR_MINUTES then 1 else 0
    if sends_changed + sends_heartbeat > 0 then
      (⟨some actions, some now⟩, sends_changed + sends_heartbeat)
    else
      (state, 0)

/- ---------------------------------------------------------------------
Helper definitions and lemmas shared by the theorems below.
--------------------------------------------------------------------- -/

/-- Zone state with only zone 3 forced on. -/
def zone3_only : ZoneInfo :=
  ⟨false, false, true, false, false, false⟩

/-- A 21-character ASCII password. -/
def pw21 : String := "aaaaaaaaaaaaaaaaaaaaa"

/-- Uuid of the `password` characteristic (const.py line 74). -/
def PASSWORD_UUID : String := "38f63149-02b6-403c-810c-7e1253f474eb"

/-- Uuid of the `networkDiagnosticMode` characteristic (const.py line 247). -/
def NETWORK_DIAGNOSTIC_MODE_UUID : String := "1b42315d-e0eb-4d9e-a86b-dcabcc3565b9"

/-- A wire where every write succeeds. -/
def all_writes_ok : String → List Nat → Bool := fun _ _ => true

/-- A wire where writes to one uuid fail and all others succeed. -/
def fail_on_uuid (u : String) : String → List Nat → Bool :=
  fun v _ => decide (v ≠ u)

/-- A synthetic READ capability with policy AFTER_WRITE (the shipped catalog
contains none; the poll selection logic is generic over capabilities). -/
def after_write_char : Characteristic :=
  { uuid := "test-after-write", name := "testAfterWrite",
    properties := [.READ], read_action := .AFTER_WRITE }

/-- A synthetic READ capability with policy INDEX (ONCE). -/
def index_char : Characteristic :=
  { uuid := "test-index", name := "testIndex",
    properties := [.READ], read_action := .INDEX }

/-- If every write-capable characteristic maps an action to `None` or to an
empty bytearray, the inner dispatch loop for that action emits nothing,
raises nothing, and leaves `successful_write` false. -/
theorem write_one_action_skips (ok : String → List Nat → Bool)
    (a : WriteRequest) (chars : List Characteristic)
    (h : ∀ c ∈ chars, c.write_transform a.action a.extra = none ∨
      c.write_transform a.action a.extra = some []) :
    write_one_action ok a chars = ⟨[], false, false⟩ := by
  induction chars with
  | nil => rfl
  | cons c cs ih =>
    have hrest := ih (fun d hd => h d (List.mem_cons_of_mem c hd))
    rcases h c (List.mem_cons_self c cs) with hc | hc <;>
      simp [write_one_action, hc, hrest]

/-- An action mapped to nothing by every write-capable characteristic is a
no-op for the whole dispatcher run. -/
theorem coordinator_write_skips (ok : String → List Nat → Bool) (g : Gatt)
    (a : WriteRequest) (rest : List WriteRequest)
    (h : ∀ c ∈ write_gatt_characteristics g, c.write_transform a.action a.extra = none ∨
      c.write_transform a.action a.extra = some []) :
    coordinator_write ok g (a :: rest) = coordinator_write ok g rest := by
  have h1 : write_one_action ok a (write_gatt_characteristics g) = ⟨[], false, false⟩ :=
    write_one_action_skips ok a _ h
  simp [coordinator_write, write_actions, h1]

/- ---------------------------------------------------------------------
C1
--------------------------------------------------------------------- -/

/-- C1 counterexample: the Write Dispatcher itself does not validate the
password length. Called directly with a batch holding a provide_password
intent whose payload is 21 characters, it performs one wire write of the
21-byte payload, raises no error, and stamps last_successful_write —
contradicting the claim that the dispatcher rejects the batch before any
wire write and leaves the timestamp alone. -/
theorem dispatcher_writes_21_char_password :
    pw21.length = 21 ∧
    coordinator_write all_writes_ok taco_gatt [⟨PROVIDE_PASSWORD, .strE pw21⟩] =
      ⟨[.wireWrite PASSWORD_UUID (ascii_bytes pw21), .settle, .stampWrite],
        false, true⟩ :=
  ⟨rfl, rfl⟩

/-- C1 (amended): the 21-character password is rejected by the validation
layer, `_validate_password` in taco_init.py, which raises
ConfigEntryAuthFailed before `ble_coordinator.write` is ever invoked: no
wire event is emitted, so no wire write occurs and last_successful_write is
not updated. -/
theorem validate_password_rejects_21 (ok : String → List Nat → Bool)
    (g : Gatt) (p : String) (h : p.length = 21) :
    validate_password ok g p =
      ([], some "Cannot have a Taco password more than 20 characters.") := by
  have hne : p ≠ "" := by
    intro he
    rw [he] at h
    simp at h
  have hlen : p.length > 20 := by omega
  simp [validate_password, hne, hlen]

/-- Witness for the amended C1 theorem at a concrete 21-character password. -/
theorem validate_password_rejects_21_witness :
    validate_password all_writes_ok taco_gatt pw21 =
      ([], some "Cannot have a Taco password more than 20 characters.") :=
  validate_password_rejects_21 all_writes_ok taco_gatt pw21 (by decide)

/- ---------------------------------------------------------------------
C2
--------------------------------------------------------------------- -/

/-- C2: evaluation at the failing input. When session establishment fails
while the Result Store holds the seeded setup entry, the `except` branch of
`_make_client` leaves the store unchanged and non-empty — the un-awaited
`self.force_data_clear()` never runs — although an awaited
`force_data_clear` would have emptied it. -/
theorem make_client_failure_keeps_results :
    make_client_failure_results [("setup_timestamp", ReadValue.strV "2011-11-04")] =
      [("setup_timestamp", ReadValue.strV "2011-11-04")] ∧
    make_client_failure_results [("setup_timestamp", ReadValue.strV "2011-11-04")] ≠ [] ∧
    force_data_clear [("setup_timestamp", ReadValue.strV "2011-11-04")] = [] :=
  ⟨rfl, by decide, rfl⟩

/- ---------------------------------------------------------------------
C3
--------------------------------------------------------------------- -/

/-- C3 counterexample: a READ capability with policy AFTER_WRITE is included
in the read set of a first poll even when now - last_successful_write is far
beyond the window (here 100 >= 5), because the `read_action != NOOP and
is_first_poll` disjunct fires — contradicting the claim that for any value
of is_first_poll the capability is included iff now - last_successful_write
is below the window. -/
theorem after_write_included_on_first_poll_outside_window :
    poll_characteristic_due after_write_char true 100 0 0 = true ∧
    ¬(100 - 0 < DEFAULT_AFTER_WRITE_INTERVAL) := by
  decide

/-- C3 (amended): for a READ-supporting capability with policy AFTER_WRITE,
on a non-first poll it is included in the read set iff
now - last_successful_write < DEFAULT_AFTER_WRITE_INTERVAL, while on a first
poll it is always included regardless of the window. -/
theorem after_write_window_gates_nonfirst_poll (c : Characteristic)
    (h1 : c.read_action = .AFTER_WRITE)
    (h2 : c.properties.contains .READ = true) (now swt nt : Nat) :
    (poll_characteristic_due c false now swt nt = true ↔
      now - swt < DEFAULT_AFTER_WRITE_INTERVAL) ∧
    poll_characteristic_due c true now swt nt = true := by
  simp [poll_characteristic_due, h1, h2]

/-- Witness for the amended C3 theorem at a concrete capability and times. -/
theorem after_write_window_gates_nonfirst_poll_witness :
    (poll_characteristic_due after_write_char false 3 0 0 = true ↔
      3 - 0 < DEFAULT_AFTER_WRITE_INTERVAL) ∧
    poll_characteristic_due after_write_char true 3 0 0 = true :=
  after_write_window_gates_nonfirst_poll after_write_char rfl rfl 3 0 0

/- ---------------------------------------------------------------------
C4
--------------------------------------------------------------------- -/

/-- C4: zone-state round-trip. Encoding the zone state with only zone3 on
yields the write frame [0, 16, 0, 4]; decoding the equivalent 20-byte
force-zone-status read frame (discriminator bytes 0 and 16, the zone byte at
frame position 3) recovers exactly zone3 = true and all other zones false.
The write encoding uses bit weights 1, 2, 4, 8, 16, 32 for zones 1-6. -/
theorem force_zone_roundtrip_zone3 :
    write_force_zone_on zone3_only = [0, 16, 0, 4] ∧
    read_network_diagnostic_data_transform
        (write_force_zone_on zone3_only ++ List.replicate 16 0) =
      .ok (some ⟨NETWORK_DIAGNOSTIC_FORCE_ZONE_STATUS, .zonesV zone3_only⟩) ∧
    write_force_zone_on ⟨true, false, false, false, false, false⟩ = [0, 16, 0, 1] ∧
    write_force_zone_on ⟨false, true, false, false, false, false⟩ = [0, 16, 0, 2] ∧
    write_force_zone_on ⟨false, false, true, false, false, false⟩ = [0, 16, 0, 4] ∧
    write_force_zone_on ⟨false, false, false, true, false, false⟩ = [0, 16, 0, 8] ∧
    write_force_zone_on ⟨false, false, false, false, true, false⟩ = [0, 16, 0, 16] ∧
    write_force_zone_on ⟨false, false, false, false, false, true⟩ = [0, 16, 0, 32] :=
  ⟨rfl, rfl, rfl, rfl, rfl, rfl, rfl, rfl⟩

/- ---------------------------------------------------------------------
C5
--------------------------------------------------------------------- -/

/-- C5: for the batch [provide_password "secret", force_zones_on zone1] the
dispatcher run against the shipped catalog emits exactly two wire writes in
the caller-supplied order (password first, diagnostic-mode second), with a
settle delay after each write before the next operation, and stamps
last_successful_write at the end; when the second wire write fails instead,
the run raises and the stamp never happens, so the stamp occurs only after
the second write succeeds. -/
theorem two_intent_batch_trace :
    coordinator_write all_writes_ok taco_gatt
        [⟨PROVIDE_PASSWORD, .strE "secret"⟩,
         ⟨FORCE_ZONE_ON, .zonesE ⟨true, false, false, false, false, false⟩⟩] =
      ⟨[.wireWrite PASSWORD_UUID (ascii_bytes "secret"), .settle,
        .wireWrite NETWORK_DIAGNOSTIC_MODE_UUID [0, 16, 0, 1], .settle,
        .stampWrite], false, true⟩ ∧
    coordinator_write (fail_on_uuid NETWORK_DIAGNOSTIC_MODE_UUID) taco_gatt
        [⟨PROVIDE_PASSWORD, .strE "secret"⟩,
         ⟨FORCE_ZONE_ON, .zonesE ⟨true, false, false, false, false, false⟩⟩] =
      ⟨[.wireWrite PASSWORD_UUID (ascii_bytes "secret"), .settle],
        true, false⟩ :=
  ⟨rfl, rfl⟩

/- ---------------------------------------------------------------------
C6
--------------------------------------------------------------------- -/

/-- C6: reconciliation loop heartbeat. With a previously recorded send of a
non-empty batch A at time t: (1) a tick at or before the heartbeat threshold
with the unchanged batch sends nothing and leaves the recorded state alone;
(2) the first tick past the threshold with the unchanged batch resends
exactly once and refreshes the recorded send time to now, restarting the
heartbeat timer; (3) a tick whose batch differs from the recorded one
resends on that same tick and also refreshes the recorded send time. -/
theorem loop_step_heartbeat (A : List WriteRequest) (hA : A ≠ [])
    (t now : Nat) :
    (now - t ≤ FOUR_MINUTES →
      loop_step ⟨some A, some t⟩ now A = (⟨some A, some t⟩, 0)) ∧
    (now - t > FOUR_MINUTES →
      loop_step ⟨some A, some t⟩ now A = (⟨some A, some now⟩, 1)) ∧
    (∀ B, B ≠ [] → B ≠ A →
      1 ≤ (loop_step ⟨some A, some t⟩ now B).2 ∧
      (loop_step ⟨some A, some t⟩ now B).1 = ⟨some B, some now⟩) := by
  refine ⟨?_, ?_, ?_⟩
  · intro h
    have hhb : ¬(now - t > FOUR_MINUTES) := by omega
    simp [loop_step, hA, hhb]
  · intro h
    simp [loop_step, hA, h]
  · intro B hB hBA
    have hne : A ≠ B := fun he => hBA he.symm
    by_cases hhb : now - t > FOUR_MINUTES <;>
      simp [loop_step, hB, hne, hhb]

/-- Witness for the C6 theorem: a concrete one-intent batch, recorded at
time 0; a tick at 240 seconds sends nothing, a tick at 241 seconds resends
exactly once with the timer restarted, and a changed batch at 10 seconds
resends immediately with the timer restarted. -/
theorem loop_step_heartbeat_witness :
    loop_step ⟨some [⟨"a", .nullE⟩], some 0⟩ 240 [⟨"a", .nullE⟩] =
      (⟨some [⟨"a", .nullE⟩], some 0⟩, 0) ∧
    loop_step ⟨some [⟨"a", .nullE⟩], some 0⟩ 241 [⟨"a", .nullE⟩] =
      (⟨some [⟨"a", .nullE⟩], some 241⟩, 1) ∧
    (1 ≤ (loop_step ⟨some [⟨"a", .nullE⟩], some 0⟩ 10 [⟨"b", .nullE⟩]).2 ∧
      (loop_step ⟨some [⟨"a", .nullE⟩], some 0⟩ 10 [⟨"b", .nullE⟩]).1 =
        ⟨some [⟨"b", .nullE⟩], some 10⟩) :=
  ⟨(loop_step_heartbeat [⟨"a", .nullE⟩] (by decide) 0 240).1 (by decide),
   (loop_step_heartbeat [⟨"a", .nullE⟩] (by decide) 0 241).2.1 (by decide),
   (loop_step_heartbeat [⟨"a", .nullE⟩] (by decide) 0 10).2.2
     [⟨"b", .nullE⟩] (by decide) (by decide)⟩

/- ---------------------------------------------------------------------
C7
--------------------------------------------------------------------- -/

/-- C7: a capability with read policy ONCE (ReadAction.INDEX) is never in
the read set of a non-first poll cycle; when it supports READ it is always
in the read set of a first poll cycle; and every INDEX capability of the
shipped catalog supports READ. -/
theorem once_read_only_on_first_poll :
    (∀ c : Characteristic, c.read_action = .INDEX →
      ∀ now swt nt, poll_characteristic_due c false now swt nt = false) ∧
    (∀ c : Characteristic, c.read_action = .INDEX →
      c.properties.contains .READ = true →
      ∀ now swt nt, poll_characteristic_due c true now swt nt = true) ∧
    (all_characteristics taco_gatt).all
      (fun c => !(decide (c.read_action = .INDEX)) || c.properties.contains .READ) = true := by
  refine ⟨?_, ?_, by decide⟩
  · intro c h now swt nt
    simp [poll_characteristic_due, h]
  · intro c h hr now swt nt
    simp [poll_characteristic_due, h, hr]

/-- Witness for the C7 theorem at a concrete INDEX capability. -/
theorem once_read_only_on_first_poll_witness :
    poll_characteristic_due index_char false 9 9 9 = false ∧
    poll_characteristic_due index_char true 9 9 9 = true :=
  ⟨once_read_only_on_first_poll.1 index_char rfl 9 9 9,
   once_read_only_on_first_poll.2.1 index_char rfl rfl 9 9 9⟩

/- ---------------------------------------------------------------------
C8
--------------------------------------------------------------------- -/

/-- C8: a write intent whose action is accepted by no write-capable
capability (every write_transform returns None for it) contributes no wire
write, raises no error, and leaves the processing of the remaining intents
of the batch unchanged: the dispatcher run with the intent is identical to
the run without it. -/
theorem unroutable_intent_ignored (ok : String → List Nat → Bool) (g : Gatt)
    (a : WriteRequest) (rest : List WriteRequest)
    (h : ∀ c ∈ write_gatt_characteristics g,
      c.write_transform a.action a.extra = none) :
    coordinator_write ok g (a :: rest) = coordinator_write ok g rest :=
  coordinator_write_skips ok g a rest (fun c hc => .inl (h c hc))

/-- Witness for the C8 theorem: against the shipped catalog, an intent with
an unknown action is dropped and the rest of the batch is dispatched as if
the intent were absent. -/
theorem unroutable_intent_ignored_witness :
    coordinator_write all_writes_ok taco_gatt
        [⟨"unknown_action", .nullE⟩, ⟨PROVIDE_PASSWORD, .strE "secret"⟩] =
      coordinator_write all_writes_ok taco_gatt [⟨PROVIDE_PASSWORD, .strE "secret"⟩] :=
  unroutable_intent_ignored all_writes_ok taco_gatt ⟨"unknown_action", .nullE⟩
    [⟨PROVIDE_PASSWORD, .strE "secret"⟩] (by decide)

/- ---------------------------------------------------------------------
C9
--------------------------------------------------------------------- -/

/-- C9: a write intent whose matching transform produces an empty bytearray
is treated exactly like a non-matching intent. For the one-intent batch
[provide_password ""] the dispatcher performs zero wire writes and does not
stamp last_successful_write, even though the password capability accepts the
action (its transform returns an empty bytearray, not None); and in general
an intent every transform maps to None or to empty bytes leaves the
dispatcher run unchanged. -/
theorem empty_bytes_intent_ignored :
    coordinator_write all_writes_ok taco_gatt [⟨PROVIDE_PASSWORD, .strE ""⟩] =
      ⟨[], false, false⟩ ∧
    write_password_transform PROVIDE_PASSWORD (.strE "") = some [] ∧
    (∀ (ok : String → List Nat → Bool) (g : Gatt) (a : WriteRequest)
        (rest : List WriteRequest),
      (∀ c ∈ write_gatt_characteristics g,
        c.write_transform a.action a.extra = none ∨
        c.write_transform a.action a.extra = some []) →
      coordinator_write ok g (a :: rest) = coordinator_write ok g rest) :=
  ⟨rfl, rfl, fun ok g a rest h => coordinator_write_skips ok g a rest h⟩

/-- Witness for the C9 theorem: the empty-password intent is dropped from a
batch exactly as a non-matching intent would be. -/
theorem empty_bytes_intent_ignored_witness :
    coordinator_write all_writes_ok taco_gatt
        [⟨PROVIDE_PASSWORD, .strE ""⟩,
         ⟨FORCE_ZONE_ON, .zonesE ⟨true, false, false, false, false, false⟩⟩] =
      coordinator_write all_writes_ok taco_gatt
        [⟨FORCE_ZONE_ON, .zonesE ⟨true, false, false, false, false, false⟩⟩] :=
  empty_bytes_intent_ignored.2.2 all_writes_ok taco_gatt
    ⟨PROVIDE_PASSWORD, .strE ""⟩
    [⟨FORCE_ZONE_ON, .zonesE ⟨true, false, false, false, false, false⟩⟩]
    (by decide)

/- ---------------------------------------------------------------------
C10
--------------------------------------------------------------------- -/

/-- Membership after a dict assignment: an entry of the updated store is
either the assigned pair or an entry the store already had. -/
theorem mem_store_insert {p : String × ReadValue} {k : String} {v : ReadValue}
    {st : List (String × ReadValue)} (h : p ∈ store_insert k v st) :
    p = (k, v) ∨ p ∈ st := by
  unfold store_insert at h
  split at h
  · obtain ⟨q, hq, hmap⟩ := List.mem_map.mp h
    by_cases hqk : q.1 = k
    · left
      rw [if_pos hqk] at hmap
      exact hmap.symm
    · right
      rw [if_neg hqk] at hmap
      exact hmap ▸ hq
  · rcases List.mem_append.mp h with h1 | h2
    · exact .inr h1
    · left
      simpa using h2

/-- Folding a sequence of incoming results through `_consume_result`: every
entry of the final store is an entry of the starting store or was stored
from a truthy result carrying exactly that key and value. -/
theorem consume_fold_mem (rs : List (Option PyReadResult)) :
    ∀ (st : List (String × ReadValue)) (p : String × ReadValue),
      p ∈ rs.foldl (fun s r => consume_result r s) st →
      p ∈ st ∨ ∃ o : PyReadResult, some o ∈ rs ∧ o.truthy = true ∧
        o.key = some p.1 ∧ o.value = some p.2 := by
  induction rs with
  | nil =>
    intro st p h
    exact .inl h
  | cons r rs ih =>
    intro st p h
    rw [List.foldl_cons] at h
    rcases ih _ p h with h1 | ⟨o, ho, hh⟩
    · cases r with
      | none => exact .inl h1
      | some o =>
        obtain ⟨t, k, v⟩ := o
        cases t with
        | false => exact .inl (by simpa [consume_result] using h1)
        | true =>
          cases k with
          | none => exact .inl (by simpa [consume_result] using h1)
          | some kk =>
            cases v with
            | none => exact .inl (by simpa [consume_result] using h1)
            | some vv =>
              rcases mem_store_insert (by simpa [consume_result] using h1) with he | hm
              · exact .inr ⟨⟨true, some kk, some vv⟩, by simp, rfl,
                  by simp [he], by simp [he]⟩
              · exact .inl hm
    · exact .inr ⟨o, List.mem_cons_of_mem _ ho, hh⟩

/-- C10: `_consume_result` never mutates the Result Store on a result that
is None, falsy, or missing a key or value attribute (and, being a total
function of the store, never raises); consequently after consuming any
sequence of incoming results starting from an empty store, every stored
entry was written from a well-formed truthy result under that result's own
key and value. -/
theorem consume_result_wellformed_only :
    (∀ (result : Option PyReadResult) (results : List (String × ReadValue)),
      well_formed_result result = false →
      consume_result result results = results) ∧
    (∀ (rs : List (Option PyReadResult)) (p : String × ReadValue),
      p ∈ rs.foldl (fun s r => consume_result r s) [] →
      ∃ o : PyReadResult, some o ∈ rs ∧ o.truthy = true ∧
        o.key = some p.1 ∧ o.value = some p.2) := by
  constructor
  · intro result results h
    cases result with
    | none => rfl
    | some r =>
      obtain ⟨t, k, v⟩ := r
      cases t <;> cases k <;> cases v <;> simp_all [well_formed_result, consume_result]
  · intro rs p h
    rcases consume_fold_mem rs [] p h with h1 | h2
    · simp at h1
    · exact h2

/-- Witness for the C10 theorem: a falsy result with both attributes leaves
a concrete store untouched, and the single entry produced by consuming one
well-formed result traces back to that result. -/
theorem consume_result_wellformed_only_witness :
    consume_result (some ⟨false, some "k", some (.strV "v")⟩)
        [("a", .strV "b")] = [("a", .strV "b")] ∧
    (∃ o : PyReadResult,
      some o ∈ [some (⟨true, some "k", some (.strV "v")⟩ : PyReadResult)] ∧
      o.truthy = true ∧ o.key = some "k" ∧ o.value = some (.strV "v")) :=
  ⟨consume_result_wellformed_only.1 (some ⟨false, some "k", some (.strV "v")⟩)
      [("a", .strV "b")] (by decide),
   consume_result_wellformed_only.2
      [some ⟨true, some "k", some (.strV "v")⟩] ("k", .strV "v") (by decide)⟩
